import Mathlib

/-!
Shallow embedding of the AI Weather Chatbot (src/main.py).

The program is a FastAPI orchestration layer: a chat endpoint classifies a
message as a weather query via a language-model call, optionally fetches
weather data from the Open-Meteo forecast API, and asks the language model
again to phrase the answer.  The two remote endpoints are modelled as oracle
parameters: the language model is a function from the message list sent to it
to either the extracted content string of its reply (success) or a failure
(network error, timeout, non-success status, or a malformed response body from
which `choices[0].message.content` cannot be read); the weather endpoint is a
function from the issued query to either the parsed JSON payload or a failure.
`json.loads` applied to the extracted intent text is likewise an oracle
`List Char -> Option Intent` (`none` models a parse error).  Python strings are
modelled as `String` or `List Char` (for the index arithmetic of the brace
extraction), Python floats in the intent as rationals, and Python dicts as
association lists looked up by first match.  String literals write braces,
double quotes and apostrophes with `\x7b`, `\x7d`, `\x22`, `\x27` escapes.
-/

namespace WeatherBot

/-- Python `str.lower()` on one character, for the ASCII names involved. -/
def lowerChar (c : Char) : Char :=
  if 'A' ≤ c ∧ c ≤ 'Z' then Char.ofNat (c.toNat + 32) else c

/-- Python `str.lower()` (the parameter names involved are ASCII). -/
def pyLower (s : String) : String :=
  ⟨s.data.map lowerChar⟩

/-- Python `str.strip()`: remove leading and trailing whitespace. -/
def pyStrip (s : String) : String :=
  ⟨((s.data.dropWhile Char.isWhitespace).reverse.dropWhile Char.isWhitespace).reverse⟩

/-- Python `sep.join(parts)`. -/
def sepJoin (sep : String) (parts : List String) : String :=
  ⟨List.intercalate sep.data (parts.map String.data)⟩

/-- A chat message sent to the language model: a role and a content string,
modelling the `\x7b"role": ..., "content": ...\x7d` dicts of src/main.py. -/
structure Msg where
  role : String
  content : String
deriving DecidableEq

/-- The language-model endpoint as an oracle: from the message list posted to
it to either the string `choices[0].message.content` of its reply, or a
failure (network error, timeout, non-2xx status raised by
`response.raise_for_status()` in `call_llm`, or a reply body without that
field). -/
abbrev Llm := List Msg → Except Unit String

/-- A Python dict with string keys, as an association list; lookups return the
first matching binding. -/
abbrev Dict (α : Type) := List (String × α)

/-- Python `d.get(k)` / `d[k]` on a string-keyed dict: the first binding of the
key, if any. -/
def dictGet {α : Type} : Dict α → String → Option α
  | [], _ => none
  | (k', v) :: rest, k => if k' = k then some v else dictGet rest k

/-- The intent dict produced by `detect_intent` (src/main.py lines 61 to 109):
each field is `none` when the key is absent from the parsed JSON object.
Coordinates are modelled as rationals. -/
structure Intent where
  is_weather_query : Option Bool
  location : Option String
  parameters : Option (List String)
  timeframe : Option String
  latitude : Option ℚ
  longitude : Option ℚ
deriving DecidableEq

/-- The dict `\x7b"is_weather_query": False\x7d` returned by `detect_intent` on any
failure (src/main.py line 109). -/
def defaultIntent : Intent :=
  ⟨some false, none, none, none, none, none⟩

/-- `json.loads` on the extracted intent text as an oracle: `none` models a
`JSONDecodeError` (the claims never depend on the parser internals, only on
whether parsing succeeded and on the resulting dict). -/
abbrev JsonParse := List Char → Option Intent

/-- Index of the first occurrence of a character, modelling Python
`s.index(c)` (`none` when absent, where Python raises `ValueError`). -/
def idxOf (c : Char) : List Char → Option Nat
  | [] => none
  | x :: xs => if x = c then some 0 else (idxOf c xs).map (· + 1)

/-- Index of the last occurrence of a character, modelling Python
`s.rindex(c)` (`none` when absent, where Python raises `ValueError`). -/
def lastIdxOf (c : Char) (cs : List Char) : Option Nat :=
  (idxOf c cs.reverse).map (fun i => cs.length - 1 - i)

/-- Models src/main.py lines 100 to 104: if `"\x7b" in content`, replace the
content by the slice `content[content.index("\x7b") : content.rindex("\x7d") + 1]`,
from the FIRST opening brace to the LAST closing brace; `none` models the
`ValueError` raised by `content.rindex("\x7d")` when an opening brace is present
but no closing brace is (that exception is caught by the surrounding `except`
of `detect_intent`). -/
def extractJsonSlice (cs : List Char) : Option (List Char) :=
  match idxOf '{' cs with
  | none => some cs
  | some start =>
    match lastIdxOf '}' cs with
    | none => none
    | some e => some ((cs.drop start).take (e + 1 - start))

/-- The depth-counting scanner behind `firstBalanced`: the index of the
closing brace matching the opening brace that begins the list, if the braces
ever balance. -/
def closeIdx : List Char → Nat → Nat → Option Nat
  | [], _, _ => none
  | c :: cs, i, d =>
    if c = '{' then closeIdx cs (i + 1) (d + 1)
    else if c = '}' then
      if d = 1 then some i else closeIdx cs (i + 1) (d - 1)
    else closeIdx cs (i + 1) d

/-- Modelled from the claim wording, for comparison with `extractJsonSlice`:
the first balanced `\x7b...\x7d` substring of the text, i.e. the substring from the
first opening brace to its matching closing brace. -/
def firstBalanced (cs : List Char) : Option (List Char) :=
  match idxOf '{' cs with
  | none => none
  | some start =>
    match closeIdx (cs.drop start) 0 0 with
    | none => none
    | some e => some ((cs.drop start).take (e + 1))

/-- The system prompt of `detect_intent` (src/main.py lines 64 to 89). -/
def intentSystemPrompt : String :=
  "You are a weather query analyzer. Your task is to determine if the user\x27s message is asking about weather and extract relevant information.\n\nYou must respond with ONLY valid JSON in this exact format:\n\nFor weather queries:\n\x7b\n  \x22is_weather_query\x22: true,\n  \x22location\x22: \x22City Name\x22,\n  \x22parameters\x22: [\x22temperature\x22, \x22humidity\x22],\n  \x22timeframe\x22: \x22current\x22,\n  \x22latitude\x22: 28.6139,\n  \x22longitude\x22: 77.2090\n\x7d\n\nFor non-weather queries:\n\x7b\n  \x22is_weather_query\x22: false\n\x7d\n\nImportant rules:\n1. Extract the city/location name from the query\n2. Determine what weather parameters the user wants (temperature, humidity, precipitation, wind_speed, etc.)\n3. Provide accurate latitude and longitude for the location\n4. If no specific parameters are mentioned, default to [\x22temperature\x22]\n5. Timeframe should always be \x22current\x22 for now\n6. Return ONLY the JSON, no other text or explanation"

/-- The message list `detect_intent` posts to the language model
(src/main.py lines 91 to 94). -/
def intentMessages (userInput : String) : List Msg :=
  [⟨"system", intentSystemPrompt⟩, ⟨"user", userInput⟩]

/-- Models `detect_intent` (src/main.py lines 61 to 109): post the system
prompt and the user message; strip the reply content; if it contains an
opening brace, cut it down to the slice from the first `\x7b` to the last `\x7d`;
parse it as JSON.  Any failure along the way (network, missing reply fields,
`rindex` ValueError, JSON parse error) is caught by the `except` and yields
`\x7b"is_weather_query": False\x7d`. -/
def detect_intent (llm : Llm) (parse : JsonParse) (userInput : String) : Intent :=
  match llm (intentMessages userInput) with
  | .error _ => defaultIntent
  | .ok body =>
    match extractJsonSlice (pyStrip body).data with
    | none => defaultIntent
    | some cs =>
      match parse cs with
      | none => defaultIntent
      | some intentData => intentData

/-- The condition under which `detect_intent` takes its `except` branch or a
failed parse: the language-model call fails, or the reply contains a `\x7b` but
no `\x7d` (so `rindex` raises), or `json.loads` fails on the extracted text. -/
def intentDetectionFailure (llm : Llm) (parse : JsonParse) (userInput : String) : Bool :=
  match llm (intentMessages userInput) with
  | .error _ => true
  | .ok body =>
    match extractJsonSlice (pyStrip body).data with
    | none => true
    | some cs => (parse cs).isNone

/-- `PARAM_MAPPING` (src/main.py lines 30 to 40): the fixed map from
user-facing parameter names to Open-Meteo parameter codes. -/
def PARAM_MAPPING : Dict String :=
  [("temperature", "temperature_2m"),
   ("humidity", "relative_humidity_2m"),
   ("precipitation", "precipitation"),
   ("wind_speed", "wind_speed_10m"),
   ("wind", "wind_speed_10m"),
   ("weather", "weather_code"),
   ("pressure", "pressure_msl"),
   ("cloud_cover", "cloud_cover"),
   ("clouds", "cloud_cover")]

/-- The expression `PARAM_MAPPING.get(param.lower(), param)` used by both
`fetch_weather` (line 118) and `format_response` (line 146): look the
lowercased name up in `PARAM_MAPPING`, fall back to the name itself. -/
def mapParam (p : String) : String :=
  (dictGet PARAM_MAPPING (pyLower p)).getD p

/-- The parsed JSON payload of the forecast endpoint: its `current` value
mapping and its `current_units` unit mapping (absent keys are modelled by the
empty dict, matching the `weather_data.get(..., \x7b\x7d)` defaults of
`format_response`). -/
structure WeatherData where
  current : Dict ℚ
  current_units : Dict String
deriving DecidableEq

/-- The query `fetch_weather` sends to the forecast endpoint
(src/main.py lines 122 to 126): coordinates plus the comma-joined list of
mapped parameter codes. -/
structure WeatherQuery where
  latitude : ℚ
  longitude : ℚ
  current : String
deriving DecidableEq

/-- The forecast endpoint as an oracle: from the issued query to either the
parsed JSON payload or a failure (network error, timeout, or non-2xx status
raised by `response.raise_for_status()`). -/
abbrev WeatherApi := WeatherQuery → Except Unit WeatherData

/-- The query built by `fetch_weather` (src/main.py lines 115 to 126): each
parameter is mapped through `PARAM_MAPPING` (lowercased, unmapped names pass
through) and the codes are joined with commas. -/
def weatherQueryOf (latitude longitude : ℚ) (parameters : List String) : WeatherQuery :=
  ⟨latitude, longitude, sepJoin "," (parameters.map mapParam)⟩

/-- Models `fetch_weather` (src/main.py lines 112 to 134): build the query,
issue the GET; the `except Exception: raise` re-raises any failure unchanged,
so the result is exactly the endpoint result. -/
def fetch_weather (api : WeatherApi) (latitude longitude : ℚ)
    (parameters : List String) : Except Unit WeatherData :=
  api (weatherQueryOf latitude longitude parameters)

/-- Python dict insertion `d[k] = v`: update the existing binding in place if
the key is present, otherwise append the new binding. -/
def dictInsert {α : Type} : Dict α → String → α → Dict α
  | [], k, v => [(k, v)]
  | (k', v') :: rest, k, v =>
    if k' = k then (k, v) :: rest else (k', v') :: dictInsert rest k v

/-- The loop of src/main.py lines 144 to 148 with its accumulated dict: for
each parameter in order, map it through `PARAM_MAPPING` and, when the mapped
code is a key of `current`, store its current value. -/
def buildDataDictAux (current : Dict ℚ) : Dict ℚ → List String → Dict ℚ
  | d, [] => d
  | d, p :: ps =>
    match dictGet current (mapParam p) with
    | some v => buildDataDictAux current (dictInsert d (mapParam p) v) ps
    | none => buildDataDictAux current d ps

/-- The `data_dict` built by `format_response` (src/main.py lines 144 to 148):
the loop starting from the empty dict. -/
def buildDataDict (current : Dict ℚ) (parameters : List String) : Dict ℚ :=
  buildDataDictAux current [] parameters

/-- Rendering of a rational for string interpolation, standing in for the
Python rendering of the numeric values. -/
def renderQ (q : ℚ) : String :=
  toString q

/-- Python `repr` of a string-to-number dict, as interpolated into the
fallback f-string of `format_response` (src/main.py line 180). -/
def pyDictRepr (d : Dict ℚ) : String :=
  "\x7b" ++ sepJoin ", " (d.map (fun kv => "\x27" ++ kv.1 ++ "\x27: " ++ renderQ kv.2)) ++ "\x7d"

/-- Stand-in for `json.dumps(d, indent=2)` on the data dict as interpolated
into the user prompt of `format_response` (the claims never inspect this
text; it only keys the language-model oracle). -/
def jsonDumpsQ (d : Dict ℚ) : String :=
  "\x7b" ++ sepJoin ", " (d.map (fun kv => "\x22" ++ kv.1 ++ "\x22: " ++ renderQ kv.2)) ++ "\x7d"

/-- Stand-in for `json.dumps(d, indent=2)` on the units dict. -/
def jsonDumpsS (d : Dict String) : String :=
  "\x7b" ++ sepJoin ", " (d.map (fun kv => "\x22" ++ kv.1 ++ "\x22: \x22" ++ kv.2 ++ "\x22")) ++ "\x7d"

/-- The system prompt of `format_response` (src/main.py lines 153 to 160). -/
def formatSystemPrompt : String :=
  "You are a friendly weather assistant. Format the provided weather data into a natural, conversational response.\n\nRules:\n1. Use ONLY the data provided - do not make up or hallucinate information\n2. Include units properly (°C, %, mm, etc.)\n3. Keep the response concise and friendly\n4. Mention the location clearly\n5. If data is missing, acknowledge it politely"

/-- The message list `format_response` posts to the language model
(src/main.py lines 162 to 173). -/
def formatMessages (location : String) (dataDict : Dict ℚ) (units : Dict String) : List Msg :=
  [⟨"system", formatSystemPrompt⟩,
   ⟨"user", "Location: " ++ location ++ "\n\nWeather Data: " ++ jsonDumpsQ dataDict
      ++ "\n\nUnits: " ++ jsonDumpsS units
      ++ "\n\nFormat this into a natural conversational response."⟩]

/-- The deterministic fallback f-string of `format_response`
(src/main.py line 180). -/
def formatFallback (location : String) (dataDict : Dict ℚ) : String :=
  "Weather data for " ++ location ++ ": " ++ pyDictRepr dataDict

/-- Models `format_response` (src/main.py lines 137 to 180): filter the
payload to the requested mapped parameters, ask the language model to phrase
it; on any failure return the deterministic fallback string. -/
def format_response (llm : Llm) (location : String) (weather_data : WeatherData)
    (parameters : List String) : String :=
  let dataDict := buildDataDict weather_data.current parameters
  match llm (formatMessages location dataDict weather_data.current_units) with
  | .ok body => pyStrip body
  | .error _ => formatFallback location dataDict

/-- The message list `handle_non_weather_query` builds
(src/main.py lines 186 to 189). -/
def generalMessages (userInput : String) : List Msg :=
  [⟨"system", "You are a helpful assistant. Answer the user\x27s question naturally and concisely."⟩,
   ⟨"user", userInput⟩]

/-- The fixed apology of `handle_non_weather_query` (src/main.py line 195). -/
def generalApology : String :=
  "I\x27m sorry, I couldn\x27t process your request at the moment. Please try again."

/-- Models the call `call_llm(messages, temperature=0.7)` at
src/main.py line 192.  `call_llm` is declared as `call_llm(messages: list)`
(line 43) with no `temperature` parameter, so Python raises
`TypeError: call_llm() got an unexpected keyword argument` at the call site,
before any request is issued; the call therefore fails on every input,
whatever the language-model endpoint would have answered. -/
def call_llm_with_temperature (_llm : Llm) (_messages : List Msg) : Except Unit String :=
  Except.error ()

/-- Models `handle_non_weather_query` (src/main.py lines 183 to 195): build
the helpful-assistant messages and call `call_llm(messages, temperature=0.7)`;
the `except` branch returns the fixed apology. -/
def handle_non_weather_query (llm : Llm) (userInput : String) : String :=
  match call_llm_with_temperature llm (generalMessages userInput) with
  | .ok body => pyStrip body
  | .error _ => generalApology

/-- The fixed clarification returned when coordinates are missing
(src/main.py line 218). -/
def clarification : String :=
  "I couldn\x27t determine the location coordinates. Could you please be more specific about the location?"

/-- The fixed apology naming the location, returned when the weather fetch
fails (src/main.py line 226). -/
def weatherApology (location : String) : String :=
  "I\x27m sorry, I couldn\x27t fetch the weather data for " ++ location
    ++ " at the moment. Please try again later."

/-- The outcome of one `/chat` request: the response text together with the
list of queries sent to the forecast endpoint during the request. -/
structure ChatOutcome where
  response : String
  weatherCalls : List WeatherQuery
deriving DecidableEq

/-- Models the `chat` endpoint handler (src/main.py lines 198 to 238):
detect the intent; when `intent.get("is_weather_query", False)` is falsy,
answer with the general handler; otherwise read location, coordinates and
parameters (defaulting to `["temperature"]`); when `not latitude or not
longitude` (absent or zero), return the fixed clarification without calling
the forecast endpoint; otherwise fetch once, answering with the fixed
location-naming apology on failure and with `format_response` on success.
The outcome records each forecast query issued. -/
def chat (llm : Llm) (parse : JsonParse) (api : WeatherApi) (message : String) : ChatOutcome :=
  let intent := detect_intent llm parse message
  if intent.is_weather_query.getD false = false then
    ⟨handle_non_weather_query llm message, []⟩
  else
    let location := intent.location.getD "Unknown"
    let parameters := intent.parameters.getD ["temperature"]
    match intent.latitude, intent.longitude with
    | some lat, some lon =>
      if lat = 0 ∨ lon = 0 then ⟨clarification, []⟩
      else
        match fetch_weather api lat lon parameters with
        | .error _ => ⟨weatherApology location, [weatherQueryOf lat lon parameters]⟩
        | .ok weather_data =>
          ⟨format_response llm location weather_data parameters,
           [weatherQueryOf lat lon parameters]⟩
    | _, _ => ⟨clarification, []⟩

/-! Helper lemmas. -/

theorem mapParam_value_fixed (s v : String) (h : dictGet PARAM_MAPPING s = some v) :
    mapParam v = v := by
  simp only [PARAM_MAPPING, dictGet] at h
  split_ifs at h
  all_goals (injection h with h; subst h; decide)

theorem dictGet_dictInsert {α : Type} (d : Dict α) (k : String) (v : α) (k' : String) :
    dictGet (dictInsert d k v) k' = if k = k' then some v else dictGet d k' := by
  induction d with
  | nil => simp [dictInsert, dictGet]
  | cons hd tl ih =>
    obtain ⟨k₁, v₁⟩ := hd
    by_cases h : k₁ = k
    · subst h
      simp [dictInsert, dictGet]
      split_ifs <;> rfl
    · simp only [dictInsert, dictGet, h, if_false, ih]
      split_ifs <;> simp_all [dictGet]

theorem dictGet_buildDataDictAux (current : Dict ℚ) (ps : List String) :
    ∀ (d : Dict ℚ) (k : String),
      dictGet (buildDataDictAux current d ps) k =
        if k ∈ ps.map mapParam ∧ (dictGet current k).isSome then dictGet current k
        else dictGet d k := by
  induction ps with
  | nil => intro d k; simp [buildDataDictAux]
  | cons p ps ih =>
    intro d k
    simp only [buildDataDictAux]
    rcases hv : dictGet current (mapParam p) with _ | v
    · rw [ih]
      by_cases hk : k = mapParam p <;> simp [hk, hv]
    · rw [ih, dictGet_dictInsert]
      by_cases hk : k = mapParam p
      · subst hk
        simp [hv, List.map_cons, List.mem_cons]
      · have hk2 : ¬ mapParam p = k := fun hc => hk hc.symm
        rw [if_neg hk2]
        simp only [List.map_cons, List.mem_cons, hk, false_or]

theorem dictGet_buildDataDict (current : Dict ℚ) (parameters : List String) (k : String) :
    dictGet (buildDataDict current parameters) k =
      if k ∈ parameters.map mapParam then dictGet current k else none := by
  rw [buildDataDict, dictGet_buildDataDictAux]
  by_cases hmem : k ∈ parameters.map mapParam <;>
    rcases h : dictGet current k with _ | v <;> simp [hmem, h, dictGet]

theorem idxOf_append_of_not_mem (c : Char) (l₁ l₂ : List Char) (h : c ∉ l₁) :
    idxOf c (l₁ ++ l₂) = (idxOf c l₂).map (· + l₁.length) := by
  induction l₁ with
  | nil => cases hI : idxOf c l₂ <;> simp [hI]
  | cons x xs ih =>
    have hx : ¬ x = c := fun hc => h (hc ▸ List.mem_cons_self x xs)
    have hxs : c ∉ xs := fun hc => h (List.mem_cons_of_mem x hc)
    rw [List.cons_append, idxOf, if_neg hx, ih hxs]
    cases hI : idxOf c l₂ <;> simp [hI, Nat.add_assoc]

theorem idxOf_cons_self (c : Char) (l : List Char) : idxOf c (c :: l) = some 0 := by
  simp [idxOf]

theorem exists_append_of_getLast? {α : Type} (l : List α) (a : α)
    (h : l.getLast? = some a) : ∃ t, l = t ++ [a] := by
  induction l with
  | nil => cases h
  | cons x xs ih =>
    cases xs with
    | nil =>
      refine ⟨[], ?_⟩
      simp only [List.getLast?_singleton, Option.some.injEq] at h
      rw [h]
      rfl
    | cons y ys =>
      obtain ⟨t, ht⟩ := ih (by rwa [List.getLast?_cons_cons] at h)
      exact ⟨x :: t, by rw [List.cons_append, ← ht]⟩

/-! Theorems settling the claims. -/

/-- C1: the claim says `handle_non_weather_query` returns the fixed apology
only when the language-model call fails.  In the code, the call
`call_llm(messages, temperature=0.7)` (src/main.py line 192) passes a keyword
argument that `call_llm(messages: list)` does not declare, so Python raises
`TypeError` before any request is made: the handler returns the apology on
every input, never the model text, even when the language-model endpoint
would have succeeded. -/
theorem handle_non_weather_query_always_apology :
    (∀ (llm : Llm) (userInput : String),
      handle_non_weather_query llm userInput = generalApology) ∧
      handle_non_weather_query (fun _ => Except.ok "Sure, here is a joke.") "Tell me a joke"
        ≠ "Sure, here is a joke." := by
  constructor
  · intro llm userInput; rfl
  · decide

/-- C2: when the detected intent is classified as non-weather (the
`is_weather_query` field, defaulted to false, is false), the chat response is
exactly the general-conversation handler output for the message and no query
is sent to the forecast endpoint. -/
theorem chat_non_weather_delegates :
    ∀ (llm : Llm) (parse : JsonParse) (api : WeatherApi) (message : String),
      (detect_intent llm parse message).is_weather_query.getD false = false →
      chat llm parse api message = ⟨handle_non_weather_query llm message, []⟩ := by
  intro llm parse api message h
  unfold chat
  simp [h]

/-- Witness for C2 at a concrete input: a failing language model classifies
the message as non-weather, and the chat outcome is the general handler
output with no forecast calls. -/
theorem chat_non_weather_delegates_witness :
    chat (fun _ => Except.error ()) (fun _ => none) (fun _ => Except.error ()) "Tell me a joke"
      = ⟨handle_non_weather_query (fun _ => Except.error ()) "Tell me a joke", []⟩ :=
  chat_non_weather_delegates (fun _ => Except.error ()) (fun _ => none)
    (fun _ => Except.error ()) "Tell me a joke" (by decide)

/-- C3 (amended): `detect_intent` does not take the first balanced brace
substring; it takes the slice from the FIRST opening brace to the LAST
closing brace of the stripped reply (tolerating prose before the first
opening brace and after the last closing brace) and hands that slice to the
JSON parser, returning the default intent when parsing fails. -/
theorem extractJsonSlice_first_to_last :
    (∀ pre j post : List Char, '{' ∉ pre → '}' ∉ post →
        j.head? = some '{' → j.getLast? = some '}' →
        extractJsonSlice (pre ++ j ++ post) = some j) ∧
    (∀ (llm : Llm) (parse : JsonParse) (userInput body : String) (cs : List Char),
        llm (intentMessages userInput) = .ok body →
        extractJsonSlice (pyStrip body).data = some cs →
        detect_intent llm parse userInput = (parse cs).getD defaultIntent) := by
  constructor
  · intro pre j post hpre hpost hhead hlast
    obtain ⟨j₂, rfl⟩ := exists_append_of_getLast? j '}' hlast
    obtain ⟨j₁, hj⟩ : ∃ t, j₂ ++ ['}'] = '{' :: t := by
      cases hcase : j₂ ++ ['}'] with
      | nil => simp at hcase
      | cons a t =>
        rw [hcase] at hhead
        injection hhead with h
        exact ⟨t, by rw [h]⟩
    rw [List.append_assoc]
    have hfirst : idxOf '{' (pre ++ (j₂ ++ ['}'] ++ post)) = some pre.length := by
      rw [idxOf_append_of_not_mem '{' pre _ hpre, hj, List.cons_append,
        idxOf_cons_self]
      simp
    have hrev : (pre ++ (j₂ ++ ['}'] ++ post)).reverse
        = post.reverse ++ ('}' :: (j₂.reverse ++ pre.reverse)) := by
      simp [List.reverse_append]
    have hlastidx : lastIdxOf '}' (pre ++ (j₂ ++ ['}'] ++ post))
        = some (pre.length + j₂.length) := by
      rw [lastIdxOf, hrev, idxOf_append_of_not_mem '}' post.reverse _
        (fun hc => hpost (List.mem_reverse.mp hc)), idxOf_cons_self]
      show some ((pre ++ (j₂ ++ ['}'] ++ post)).length - 1 - (0 + post.reverse.length))
          = some (pre.length + j₂.length)
      simp only [List.length_append, List.length_reverse, List.length_cons,
        List.length_nil, Option.some.injEq]
      omega
    have harith : pre.length + j₂.length + 1 - pre.length = (j₂ ++ ['}']).length := by
      simp only [List.length_append, List.length_cons, List.length_nil]
      omega
    simp only [extractJsonSlice, hfirst, hlastidx, harith]
    rw [List.drop_left, List.take_left]
  · intro llm parse userInput body cs hllm hex
    unfold detect_intent
    simp only [hllm]
    simp only [hex]
    cases parse cs <;> rfl

/-- Witness for the amended C3 at concrete prose: the slice of
`x \x7ba\x7d y` is exactly `\x7ba\x7d`, and `detect_intent` parses the extracted
slice. -/
theorem extractJsonSlice_first_to_last_witness :
    extractJsonSlice ("x ".data ++ "\x7ba\x7d".data ++ " y".data) = some "\x7ba\x7d".data ∧
    detect_intent (fun _ => Except.ok "\x7ba\x7d")
        (fun _ => some defaultIntent) "m" = (some defaultIntent).getD defaultIntent :=
  ⟨extractJsonSlice_first_to_last.1 "x ".data "\x7ba\x7d".data " y".data
      (by decide) (by decide) (by decide) (by decide),
   extractJsonSlice_first_to_last.2 (fun _ => Except.ok "\x7ba\x7d")
      (fun _ => some defaultIntent) "m" "\x7ba\x7d" "\x7ba\x7d".data rfl (by decide)⟩

/-- Counterexample to C3 as stated: in the reply `\x7ba\x7d \x7d`, the first
balanced brace substring is `\x7ba\x7d`, but the code slices from the first `\x7b`
to the LAST `\x7d`, producing `\x7ba\x7d \x7d`; a parser accepting exactly the
balanced substring therefore never sees it and `detect_intent` falls back to
the default intent instead of the parsed weather intent. -/
theorem extract_not_first_balanced :
    detect_intent (fun _ => Except.ok "\x7ba\x7d \x7d")
        (fun cs => if cs = "\x7ba\x7d".data then
          some ⟨some true, some "X", none, none, none, none⟩ else none)
        "m" = defaultIntent ∧
      firstBalanced "\x7ba\x7d \x7d".data = some "\x7ba\x7d".data ∧
      extractJsonSlice "\x7ba\x7d \x7d".data = some "\x7ba\x7d \x7d".data ∧
      "\x7ba\x7d \x7d".data ≠ "\x7ba\x7d".data := by
  decide

/-- C4: when the detected intent is weather-classified but latitude or
longitude is absent, the chat response is exactly the fixed clarification
sentence and no query is sent to the forecast endpoint. -/
theorem chat_missing_coordinates_clarifies :
    ∀ (llm : Llm) (parse : JsonParse) (api : WeatherApi) (message : String),
      (detect_intent llm parse message).is_weather_query.getD false = true →
      ((detect_intent llm parse message).latitude = none ∨
        (detect_intent llm parse message).longitude = none) →
      chat llm parse api message = ⟨clarification, []⟩ := by
  intro llm parse api message hw hmiss
  unfold chat
  rcases hlat : (detect_intent llm parse message).latitude with _ | lat <;>
    rcases hlon : (detect_intent llm parse message).longitude with _ | lon <;>
    simp_all

/-- Witness for C4 at a concrete input: a weather intent for Paris with no
coordinates yields the clarification and no forecast call. -/
theorem chat_missing_coordinates_clarifies_witness :
    chat (fun _ => Except.ok "\x7b\x7d")
      (fun _ => some ⟨some true, some "Paris", none, none, none, none⟩)
      (fun _ => Except.error ()) "weather in Paris" = ⟨clarification, []⟩ :=
  chat_missing_coordinates_clarifies (fun _ => Except.ok "\x7b\x7d")
    (fun _ => some ⟨some true, some "Paris", none, none, none, none⟩)
    (fun _ => Except.error ()) "weather in Paris" (by decide) (Or.inl (by decide))

/-- C5: when the detected intent is weather-classified with nonzero
coordinates and the forecast endpoint fails on the issued query, the chat
response is the fixed apology naming the extracted location (the location
field, defaulted to Unknown), and exactly one forecast query is issued (no
retry). -/
theorem chat_fetch_failure_apologizes :
    ∀ (llm : Llm) (parse : JsonParse) (api : WeatherApi) (message : String) (lat lon : ℚ),
      (detect_intent llm parse message).is_weather_query.getD false = true →
      (detect_intent llm parse message).latitude = some lat → lat ≠ 0 →
      (detect_intent llm parse message).longitude = some lon → lon ≠ 0 →
      api (weatherQueryOf lat lon
        ((detect_intent llm parse message).parameters.getD ["temperature"])) = .error () →
      chat llm parse api message =
        ⟨weatherApology ((detect_intent llm parse message).location.getD "Unknown"),
          [weatherQueryOf lat lon
            ((detect_intent llm parse message).parameters.getD ["temperature"])]⟩ ∧
      (∃ pre post : String,
        weatherApology ((detect_intent llm parse message).location.getD "Unknown") =
          pre ++ (detect_intent llm parse message).location.getD "Unknown" ++ post) := by
  intro llm parse api message lat lon hw hlat hlatne hlon hlonne hapi
  refine ⟨?_, "I\x27m sorry, I couldn\x27t fetch the weather data for ",
    " at the moment. Please try again later.", rfl⟩
  unfold chat
  simp_all [fetch_weather]

/-- Witness for C5 at a concrete input: a weather intent for Paris at (48, 2)
with a failing forecast endpoint yields the location-naming apology after a
single forecast query. -/
theorem chat_fetch_failure_apologizes_witness :
    chat (fun _ => Except.ok "\x7b\x7d")
        (fun _ => some ⟨some true, some "Paris", some ["temperature"], some "current",
          some 48, some 2⟩)
        (fun _ => Except.error ()) "weather in Paris" =
      ⟨weatherApology "Paris", [weatherQueryOf 48 2 ["temperature"]]⟩ ∧
    (∃ pre post : String, weatherApology "Paris" = pre ++ "Paris" ++ post) :=
  chat_fetch_failure_apologizes (fun _ => Except.ok "\x7b\x7d")
    (fun _ => some ⟨some true, some "Paris", some ["temperature"], some "current",
      some 48, some 2⟩)
    (fun _ => Except.error ()) "weather in Paris" 48 2
    (by decide) (by decide) (by decide) (by decide) (by decide) rfl

/-- C6: whenever intent detection fails (language-model failure, a reply with
an opening brace but no closing brace, or a JSON parse failure on the
extracted slice), `detect_intent` returns exactly the dict
`\x7bis_weather_query: false\x7d` and propagates nothing. -/
theorem detect_intent_fail_open :
    ∀ (llm : Llm) (parse : JsonParse) (message : String),
      intentDetectionFailure llm parse message = true →
      detect_intent llm parse message = defaultIntent ∧
      defaultIntent.is_weather_query = some false := by
  intro llm parse message h
  refine ⟨?_, rfl⟩
  unfold detect_intent intentDetectionFailure at *
  rcases hllm : llm (intentMessages message) with _ | body <;> simp_all
  rcases hex : extractJsonSlice (pyStrip body).data with _ | cs <;> simp_all

/-- Witness for C6 at a concrete input: a failing language model makes intent
detection return the default non-weather intent. -/
theorem detect_intent_fail_open_witness :
    detect_intent (fun _ => Except.error ()) (fun _ => none) "hello" = defaultIntent ∧
      defaultIntent.is_weather_query = some false :=
  detect_intent_fail_open (fun _ => Except.error ()) (fun _ => none) "hello" (by decide)

/-- C7 (amended): parameter lookup is case-insensitive (the name is lowercased
before the lookup); every key of `PARAM_MAPPING` maps to its fixed provider
code; every name whose lowercased form is absent from `PARAM_MAPPING` passes
through unchanged; the mapping is idempotent; and the two examples of the
claim hold. -/
theorem paramMapping_total_idempotent :
    (∀ kv ∈ PARAM_MAPPING, mapParam kv.1 = kv.2) ∧
    (∀ p : String, dictGet PARAM_MAPPING (pyLower p) = none → mapParam p = p) ∧
    (∀ p : String, mapParam (mapParam p) = mapParam p) ∧
    mapParam "temperature" = "temperature_2m" ∧
    mapParam "made_up_param" = "made_up_param" := by
  refine ⟨by decide, ?_, ?_, by decide, by decide⟩
  · intro p h
    simp [mapParam, h]
  · intro p
    rcases h : dictGet PARAM_MAPPING (pyLower p) with _ | v
    · have hp : mapParam p = p := by simp [mapParam, h]
      rw [hp, hp]
    · have hp : mapParam p = v := by simp [mapParam, h]
      rw [hp]
      exact mapParam_value_fixed _ _ h

/-- Witness for the amended C7 at concrete names: the two examples of the
claim, a case-insensitive hit, and idempotence at a mapped name. -/
theorem paramMapping_total_idempotent_witness :
    mapParam "temperature" = "temperature_2m" ∧
      mapParam "made_up_param" = "made_up_param" ∧
      mapParam (mapParam "WIND") = mapParam "WIND" :=
  ⟨paramMapping_total_idempotent.1 ("temperature", "temperature_2m") (by decide),
   paramMapping_total_idempotent.2.1 "made_up_param" (by decide),
   paramMapping_total_idempotent.2.2.1 "WIND"⟩

/-- Counterexample to C7 as stated: the name `TEMPERATURE` is absent from
`PARAM_MAPPING` (its keys are lowercase), yet it does not pass through
unchanged: the code lowercases before the lookup and maps it to
`temperature_2m`. -/
theorem paramMapping_counterexample :
    dictGet PARAM_MAPPING "TEMPERATURE" = none ∧
      mapParam "TEMPERATURE" = "temperature_2m" ∧
      mapParam "TEMPERATURE" ≠ "TEMPERATURE" := by
  decide

/-- C8: when the detected weather intent omits the parameters field, the
parameter list used for the forecast query and for response formatting is
exactly `["temperature"]`. -/
theorem chat_default_parameters :
    ∀ (llm : Llm) (parse : JsonParse) (api : WeatherApi) (message : String)
      (lat lon : ℚ) (wd : WeatherData),
      (detect_intent llm parse message).is_weather_query.getD false = true →
      (detect_intent llm parse message).parameters = none →
      (detect_intent llm parse message).latitude = some lat → lat ≠ 0 →
      (detect_intent llm parse message).longitude = some lon → lon ≠ 0 →
      api (weatherQueryOf lat lon ["temperature"]) = .ok wd →
      chat llm parse api message =
        ⟨format_response llm ((detect_intent llm parse message).location.getD "Unknown") wd
            ["temperature"],
          [weatherQueryOf lat lon ["temperature"]]⟩ := by
  intro llm parse api message lat lon wd hw hp hlat hlatne hlon hlonne hapi
  unfold chat
  simp_all [fetch_weather]

/-- Witness for C8 at a concrete input: an intent without parameters leads to
a forecast query and a formatting call for `["temperature"]`. -/
theorem chat_default_parameters_witness :
    chat (fun _ => Except.ok "\x7b\x7d")
        (fun _ => some ⟨some true, some "Paris", none, some "current", some 48, some 2⟩)
        (fun _ => Except.ok ⟨[("temperature_2m", 15)], [("temperature_2m", "C")]⟩)
        "weather in Paris" =
      ⟨format_response (fun _ => Except.ok "\x7b\x7d") "Paris"
          ⟨[("temperature_2m", 15)], [("temperature_2m", "C")]⟩ ["temperature"],
        [weatherQueryOf 48 2 ["temperature"]]⟩ :=
  chat_default_parameters (fun _ => Except.ok "\x7b\x7d")
    (fun _ => some ⟨some true, some "Paris", none, some "current", some 48, some 2⟩)
    (fun _ => Except.ok ⟨[("temperature_2m", 15)], [("temperature_2m", "C")]⟩)
    "weather in Paris" 48 2 ⟨[("temperature_2m", 15)], [("temperature_2m", "C")]⟩
    (by decide) (by decide) (by decide) (by decide) (by decide) (by decide) rfl

/-- C9: when the formatting language-model call fails, `format_response`
returns the deterministic fallback string built from the location and the
data dict, and that data dict is exactly the payload current-value mapping
filtered to the requested mapped parameter keys (as a key lookup). -/
theorem format_response_fallback :
    ∀ (llm : Llm) (location : String) (wd : WeatherData) (parameters : List String),
      llm (formatMessages location (buildDataDict wd.current parameters) wd.current_units)
        = .error () →
      format_response llm location wd parameters =
        formatFallback location (buildDataDict wd.current parameters) ∧
      (∀ k, dictGet (buildDataDict wd.current parameters) k =
        if k ∈ parameters.map mapParam then dictGet wd.current k else none) := by
  intro llm location wd parameters h
  refine ⟨?_, fun k => dictGet_buildDataDict _ _ _⟩
  simp only [format_response, h]

/-- Witness for C9 at a concrete input: with a failing formatting model, the
response is the fallback string for Paris and the dict holds exactly the
requested mapped value. -/
theorem format_response_fallback_witness :
    format_response (fun _ => Except.error ()) "Paris"
        ⟨[("temperature_2m", 15)], [("temperature_2m", "C")]⟩ ["temperature"] =
      formatFallback "Paris" (buildDataDict [("temperature_2m", 15)] ["temperature"]) ∧
      dictGet (buildDataDict [("temperature_2m", (15 : ℚ))] ["temperature"]) "temperature_2m"
        = if "temperature_2m" ∈ (["temperature"].map mapParam) then
            dictGet [("temperature_2m", (15 : ℚ))] "temperature_2m" else none :=
  ⟨(format_response_fallback (fun _ => Except.error ()) "Paris"
      ⟨[("temperature_2m", 15)], [("temperature_2m", "C")]⟩ ["temperature"] rfl).1,
   (format_response_fallback (fun _ => Except.error ()) "Paris"
      ⟨[("temperature_2m", 15)], [("temperature_2m", "C")]⟩ ["temperature"] rfl).2
      "temperature_2m"⟩

/-- C10: when the detected weather intent carries a coordinate equal to zero
(falsy in Python), the chat endpoint treats the coordinates as missing: it
returns the fixed clarification and never calls the forecast endpoint, even
though numeric coordinates were supplied. -/
theorem chat_zero_coordinate_clarifies :
    ∀ (llm : Llm) (parse : JsonParse) (api : WeatherApi) (message : String),
      (detect_intent llm parse message).is_weather_query.getD false = true →
      ((detect_intent llm parse message).latitude = some 0 ∨
        (detect_intent llm parse message).longitude = some 0) →
      chat llm parse api message = ⟨clarification, []⟩ := by
  intro llm parse api message hw hzero
  unfold chat
  rcases hlat : (detect_intent llm parse message).latitude with _ | lat <;>
    rcases hlon : (detect_intent llm parse message).longitude with _ | lon <;>
    simp_all

/-- Witness for C10 at a concrete input: a weather intent at latitude 0 and
longitude 0 (Null Island) yields the clarification and no forecast call. -/
theorem chat_zero_coordinate_clarifies_witness :
    chat (fun _ => Except.ok "\x7b\x7d")
      (fun _ => some ⟨some true, some "Null Island", some ["temperature"], some "current",
        some 0, some 0⟩)
      (fun _ => Except.error ()) "weather at Null Island" = ⟨clarification, []⟩ :=
  chat_zero_coordinate_clarifies (fun _ => Except.ok "\x7b\x7d")
    (fun _ => some ⟨some true, some "Null Island", some ["temperature"], some "current",
      some 0, some 0⟩)
    (fun _ => Except.error ()) "weather at Null Island" (by decide) (Or.inl (by decide))

end WeatherBot
